import Mathlib

/-!
Verification of the finance chatbot (src/finance_chatbot.py).

Shallow embedding: each client operation is a Lean function from an
environment value describing the outcomes of its external calls
(yfinance, requests, json decoding) to `Except Exc String`, where
`Except.ok` is a normal Python return and `Except.error` is an exception
propagating to the caller.  Machine floats are modelled as rationals;
the rounding of Python round(x, n) and of the format f-strings is
modelled exactly as round-half-to-even on rationals.
-/

set_option maxRecDepth 40000

/-- A Python exception, modelled as its message text. -/
abbrev Exc := String

/-- Outcome of running a piece of Python code: a returned value or a
raised exception that propagates to the caller. -/
abbrev PyResult (α : Type) := Except Exc α

/-- Source line 41. -/
def SUPPORT_PHONE_NUMBER : String := "070-1234-5678"

/-- Round a rational to the nearest integer, ties to the even integer:
the rounding mode of the Python builtin round and of fixed-point format
strings. -/
def pyRoundInt (q : ℚ) : ℤ :=
  let f := ⌊q⌋
  if q - f < 1/2 then f
  else if 1/2 < q - f then f + 1
  else if f % 2 = 0 then f else f + 1

/-- Python round(q, dp): round half to even at the dp-th decimal place. -/
def pyRound (dp : ℕ) (q : ℚ) : ℚ := (pyRoundInt (q * (10:ℚ)^dp) : ℚ) / (10:ℚ)^dp

/-- Left-pad a digit string with zeros to width w. -/
def zeroPad (w : ℕ) (s : String) : String :=
  String.mk (List.replicate (w - s.length) '0') ++ s

/-- Decimal rendering of a rational with dp digits after the point, the
value first rounded half-to-even at the dp-th place.  This models both
the {x:.2f} format strings of the source and the display of an already
round()-ed float (whose repr differs only in dropping trailing zeros,
a detail none of the claims depend on). -/
def fmtFixed (dp : ℕ) (q : ℚ) : String :=
  let scaled : ℤ := pyRoundInt (q * (10:ℚ)^dp)
  let sign := if scaled < 0 then "-" else ""
  let a := scaled.natAbs
  if dp = 0 then sign ++ toString a
  else sign ++ toString (a / 10^dp) ++ "." ++ zeroPad dp (toString (a % 10^dp))

/-- Python str.upper(), restricted to the ASCII case map (the inputs the
source applies it to are currency codes). -/
def pyUpper (s : String) : String := String.mk (s.data.map Char.toUpper)

/-- x occurs as a contiguous substring of s. -/
def Substr (x s : String) : Prop := x.data <:+: s.data

/-- s begins with the prefix p. -/
def StartsWith (p s : String) : Prop := p.data <+: s.data

/-- s ends with the suffix p. -/
def EndsWith (p s : String) : Prop := p.data <:+ s.data

instance (x s : String) : Decidable (Substr x s) :=
  inferInstanceAs (Decidable (x.data <:+: s.data))

instance (p s : String) : Decidable (StartsWith p s) :=
  inferInstanceAs (Decidable (p.data <+: s.data))

instance (p s : String) : Decidable (EndsWith p s) :=
  inferInstanceAs (Decidable (p.data <:+ s.data))

/-! ## Market Data Client (source lines 107-157) -/

/-- One row of the 7-day OHLCV history returned by stock.history.
The row date is carried already rendered by strftime with format
%d.%m.%Y, as the source only ever formats it that way. -/
structure HistRow where
  date : String
  close : ℚ
  high : ℚ
  low : ℚ
  volume : ℤ
deriving DecidableEq

/-- The external world seen by one stock operation: the ticker that
find_ticker resolves to (find_ticker never raises: source lines 109-122
swallow every exception and fall back to the query), the outcome of
stock.history (source lines 129 and 149), and the outcome of the
stock.info shortName lookup (source lines 138 and 153). -/
structure StockEnv where
  resolvedTicker : String
  histResult : PyResult (List HistRow)
  shortNameResult : PyResult (Option String)

/-- The success payload of get_stock_price (source lines 139-142). -/
def priceSuccessStr (name ticker date : String) (close high low : ℚ) (volume : ℤ) : String :=
  "**" ++ name ++ " (" ++ ticker ++ ") as of " ++ date ++ "**\n" ++
  "Closing price: **" ++ fmtFixed 2 (pyRound 2 close) ++ " USD**\n" ++
  "High: " ++ fmtFixed 2 (pyRound 2 high) ++ " USD, Low: " ++ fmtFixed 2 (pyRound 2 low) ++
  " USD, Volume: " ++ toString volume ++ "\n\n" ++
  "_Source: Yahoo Finance (yfinance), as of " ++ date ++ "_"

/-- get_stock_price, source lines 125-144.  The whole body after ticker
resolution sits in one try/except, so every exception becomes the
support-contact failure string. -/
def get_stock_price (env : StockEnv) : PyResult String :=
  match env.histResult with
  | .error e =>
      .ok ("❌ Error while retrieving stock data: " ++ e ++
           ". Please contact support: " ++ SUPPORT_PHONE_NUMBER)
  | .ok hist =>
    match hist.getLast? with
    | none => .ok "❌ Could not find any price data. Please check the ticker symbol or company name."
    | some last =>
      match env.shortNameResult with
      | .error e =>
          .ok ("❌ Error while retrieving stock data: " ++ e ++
               ". Please contact support: " ++ SUPPORT_PHONE_NUMBER)
      | .ok nameOpt =>
          .ok (priceSuccessStr (nameOpt.getD env.resolvedTicker) env.resolvedTicker
                last.date last.close last.high last.low last.volume)

/-- One bullet line of the history payload (source line 155). -/
def histLine (row : HistRow) : String :=
  "* **" ++ row.date ++ ": " ++ fmtFixed 2 row.close ++ " USD**"

/-- The success payload of get_stock_history (source lines 152-156):
the last 7 rows, rendered most recent first. -/
def historySuccessStr (name ticker : String) (rows : List HistRow) : String :=
  "Here is the price history for " ++ name ++ " (" ++ ticker ++
  ") for the last seven days:\n\n" ++
  String.intercalate "\n" (((rows.drop (rows.length - 7)).reverse).map histLine)

/-- get_stock_history, source lines 146-157.  Unlike get_stock_price it
has no try/except: an exception from the history fetch or the metadata
lookup propagates to the caller. -/
def get_stock_history (env : StockEnv) : PyResult String :=
  match env.histResult with
  | .error e => .error e
  | .ok hist =>
    if hist.isEmpty then .ok "❌ No stock data available for this company."
    else
      match env.shortNameResult with
      | .error e => .error e
      | .ok nameOpt =>
          .ok (historySuccessStr (nameOpt.getD env.resolvedTicker) env.resolvedTicker hist)

/-! ## News Client (source lines 174-209) -/

/-- One article from the articles array of a 200 response.  The
published timestamp is carried already rendered: the inner parsing
try/except of source lines 199-203 never lets an exception escape, it
only chooses between the two renderings. -/
structure NewsArticle where
  publishedStr : String
  title : String
  link : String
  origin : String
deriving DecidableEq

/-- A completed HTTP round trip for the news query: the status code and,
for the json decoding performed on a 200 body (source line 193), either
the decoded articles array (missing key yields the empty list) or a
raised decoding exception. -/
structure NewsResp where
  status : ℤ
  jsonArticles : PyResult (List NewsArticle)

/-- The external world seen by get_financial_news: the display name
(the resolution of source lines 177-181 is wrapped in try/except and
never raises, falling back to the raw query), the outcome of
requests.get (source line 190), and the rendering of datetime.now()
used by the footer. -/
structure NewsEnv where
  resolvedName : String
  httpResult : PyResult NewsResp
  now : String

/-- One news bullet line (source line 207). -/
def newsLine (a : NewsArticle) : String :=
  "- " ++ a.publishedStr ++ " (" ++ a.origin ++ "): [" ++ a.title ++ "](" ++ a.link ++ ")\n"

/-- The success payload of get_financial_news (source lines 196-208). -/
def newsSuccessStr (articles : List NewsArticle) (now : String) : String :=
  String.join (articles.map newsLine) ++
  "\n_Source: newsapi.org, as of " ++ now ++ "_"

/-- get_financial_news, source lines 175-209.  Only the name resolution
and the timestamp parsing are guarded; an exception from requests.get
or from json decoding propagates. -/
def get_financial_news (env : NewsEnv) : PyResult String :=
  match env.httpResult with
  | .error e => .error e
  | .ok resp =>
    if resp.status ≠ 200 then
      .ok ("❌ Error while retrieving news (Status " ++ toString resp.status ++ ").")
    else
      match resp.jsonArticles with
      | .error e => .error e
      | .ok [] => .ok ("ℹ️ No recent news found for **" ++ env.resolvedName ++ "**.")
      | .ok (a :: rest) => .ok (newsSuccessStr (a :: rest) env.now)

/-! ## FX Client (source lines 211-231) -/

/-- The decoded body of a 200 response from the FX source: the rates
table (currency code to rate against the base; a missing rates key is
the empty table) and the strftime rendering of its timestamp field
(source line 227), carried already rendered. -/
structure FxData where
  rates : List (String × ℚ)
  timestampStr : String

/-- A completed HTTP round trip for the FX query: status code plus the
outcome of json decoding (source line 221). -/
structure FxResp where
  status : ℤ
  jsonData : PyResult FxData

/-- The external world seen by get_exchange_rate: the outcome of
requests.get (source line 218). -/
structure FxEnv where
  httpResult : PyResult FxResp

/-- Key lookup in the rates table (Python dict indexing, source lines
224-225; keys are unique in a dict, modelled by first match). -/
def lookupRate (rs : List (String × ℚ)) (k : String) : Option ℚ :=
  (rs.find? (fun p => p.1 == k)).map (fun p => p.2)

/-- The success payload of get_exchange_rate (source lines 228-229). -/
def fxSuccessStr (from_currency to_currency : String) (rate : ℚ) (ts : String) : String :=
  "1 " ++ pyUpper from_currency ++ " = **" ++ fmtFixed 4 rate ++ " " ++
  pyUpper to_currency ++ "**\n" ++
  "_Source: Open Exchange Rates, as of " ++ ts ++ " UTC_"

/-- get_exchange_rate, source lines 213-231.  The try of lines 223-229
covers the two dict lookups, the division and the formatting, so a
missing code or a zero divisor becomes the generic pair-not-found
string; requests.get and response.json are outside it and propagate. -/
def get_exchange_rate (env : FxEnv) (from_currency to_currency : String) : PyResult String :=
  match env.httpResult with
  | .error e => .error e
  | .ok resp =>
    if resp.status ≠ 200 then
      .ok ("❌ Error while retrieving exchange rate (Status " ++ toString resp.status ++ ").")
    else
      match resp.jsonData with
      | .error e => .error e
      | .ok data =>
        match lookupRate data.rates (pyUpper from_currency),
              lookupRate data.rates (pyUpper to_currency) with
        | some rate_from, some rate_to =>
          if rate_from = 0 then .ok "❌ The currency pair could not be found."
          else .ok (fxSuccessStr from_currency to_currency
                      (pyRound 4 (rate_to / rate_from)) data.timestampStr)
        | _, _ => .ok "❌ The currency pair could not be found."

/-- The numeric rate embedded in a successful get_exchange_rate payload:
the ratio of the two table entries rounded to 4 decimal places (source
line 226); none on the pair-not-found path. -/
def fxRateValue (rs : List (String × ℚ)) (from_currency to_currency : String) : Option ℚ :=
  match lookupRate rs (pyUpper from_currency), lookupRate rs (pyUpper to_currency) with
  | some rate_from, some rate_to =>
      if rate_from = 0 then none else some (pyRound 4 (rate_to / rate_from))
  | _, _ => none

/-- Modelled from the semantics of the streamlit st.cache_data(ttl=300)
decorator applied to get_exchange_rate at source line 212 (library code
outside this repository): returned values are memoized per combination
of the function arguments for 300 seconds; a raised exception is not
stored.  An entry records the argument pair, the time it was stored and
the stored payload; times are in seconds. -/
structure FxCacheEntry where
  args : String × String
  storedAt : ℕ
  payload : String
deriving DecidableEq

/-- Cache lookup: a stored payload for exactly this argument pair that
is younger than the 300 second time-to-live. -/
def fxCacheLookup (cache : List FxCacheEntry) (now : ℕ) (args : String × String) : Option String :=
  (cache.find? (fun e => decide (e.args = args) && Nat.blt (now - e.storedAt) 300)).map (fun e => e.payload)

/-- get_exchange_rate as called through its cache decorator: on a hit
the stored payload is returned unchanged, on a miss the body runs and a
normal return is stored under the argument pair. -/
def cached_get_exchange_rate (cache : List FxCacheEntry) (now : ℕ) (env : FxEnv)
    (from_currency to_currency : String) : PyResult String × List FxCacheEntry :=
  match fxCacheLookup cache now (from_currency, to_currency) with
  | some payload => (.ok payload, cache)
  | none =>
    match get_exchange_rate env from_currency to_currency with
    | .ok s => (.ok s, ⟨(from_currency, to_currency), now, s⟩ :: cache)
    | .error e => (.error e, cache)

/-! ## Conversation turn: dispatch, transcript, download (source lines 233-341) -/

/-- Message roles of the transcript (source: the role fields appearing
at lines 236, 253-255, 285, 319, 331). -/
inductive ChatRole where
  | system
  | user
  | assistant
  | function
deriving DecidableEq

/-- One transcript entry: role, content, and for tool-result messages
the tool name (source lines 319-323). -/
structure ChatMessage where
  role : ChatRole
  content : String
  name : Option String := none
deriving DecidableEq

/-- The worlds behind the four client operations during one dispatch,
one per branch of the if/elif chain of source lines 303-315, together
with the extracted exchange-rate arguments. -/
structure DispatchEnv where
  priceEnv : StockEnv
  histEnv : StockEnv
  newsEnv : NewsEnv
  fxEnv : FxEnv
  from_currency : String
  to_currency : String

/-- The if/elif dispatch on the function name requested by the model,
source lines 303-317.  An unrecognized name takes the final else branch. -/
def dispatch_function_call (env : DispatchEnv) (function_name : String) : PyResult String :=
  if function_name = "get_stock_price" then get_stock_price env.priceEnv
  else if function_name = "get_stock_history" then get_stock_history env.histEnv
  else if function_name = "get_financial_news" then get_financial_news env.newsEnv
  else if function_name = "get_exchange_rate" then
    get_exchange_rate env.fxEnv env.from_currency env.to_currency
  else .ok "Unknown function call."

/-- Dispatch followed by the transcript append of source lines 319-323:
the tool result is appended as a message with role function, tagged
with the requested name. -/
def run_tool_call (env : DispatchEnv) (msgs : List ChatMessage) (function_name : String) :
    PyResult (String × List ChatMessage) :=
  match dispatch_function_call env function_name with
  | .error e => .error e
  | .ok resp => .ok (resp, msgs ++ [⟨ChatRole.function, resp, some function_name⟩])

/-- download_chat_history, source lines 250-257: a StringIO fold over
the transcript writing one line per user and per assistant message (the
final utf-8 encoding step is identity on the text). -/
def download_chat_history (msgs : List ChatMessage) : String :=
  msgs.foldl (fun acc msg =>
    if msg.role = ChatRole.user then acc ++ ("User: " ++ msg.content ++ "\n")
    else if msg.role = ChatRole.assistant then acc ++ ("Assistant: " ++ msg.content ++ "\n")
    else acc) ""

/-- The download line of one user or assistant message. -/
def transcriptLine (msg : ChatMessage) : String :=
  (if msg.role = ChatRole.user then "User: " else "Assistant: ") ++ msg.content ++ "\n"

/-- The messages the download keeps. -/
def keptInDownload (msg : ChatMessage) : Bool :=
  if msg.role = ChatRole.user then true
  else if msg.role = ChatRole.assistant then true
  else false

/-! ## Concrete scenario constants used by counterexamples and witnesses -/

/-- A stock environment whose history fetch raises. -/
def stockEnvRaises : StockEnv := ⟨"AAPL", .error "HTTPError: 503 Server Error", .ok none⟩

/-- A stock environment whose 7-day history came back empty. -/
def stockEnvEmpty : StockEnv := ⟨"XXXX", .ok [], .ok none⟩

/-- A one-row history. -/
def rowJan2 : HistRow := ⟨"02.01.2024", 101, 102, 100, 5000⟩

/-- A stock environment with a one-row history and a short name. -/
def stockEnvOneRow : StockEnv := ⟨"AAPL", .ok [rowJan2], .ok (some "Apple Inc.")⟩

/-- A concrete FX table: EUR at 1, USD at 2, JPY at 300 against the base. -/
def fxDataCex : FxData := ⟨[("EUR", 1), ("USD", 2), ("JPY", 300)], "01.01.2024 00:00"⟩

/-- A successful FX fetch of that table. -/
def fxEnvCex : FxEnv := ⟨.ok ⟨200, .ok fxDataCex⟩⟩

/-- The payload the table gives for the pair (EUR, USD). -/
def fxMsgEURUSD : String :=
  "1 EUR = **2.0000 USD**\n_Source: Open Exchange Rates, as of 01.01.2024 00:00 UTC_"

/-- The payload the table gives for the pair (USD, JPY). -/
def fxMsgUSDJPY : String :=
  "1 USD = **150.0000 JPY**\n_Source: Open Exchange Rates, as of 01.01.2024 00:00 UTC_"

/-- A rate table with both codes present and nonzero whose reciprocal
rounded rates multiply to 0, not 1: the BBB-per-AAA rate is 30000, so
the AAA-per-BBB rate 1/30000 rounds to 0.0000 at 4 decimal places. -/
def recipRates : List (String × ℚ) := [("AAA", 1), ("BBB", 30000)]

/-- A news environment whose query returned 200 with no articles. -/
def newsEnvEmpty : NewsEnv := ⟨"Apple", .ok ⟨200, .ok []⟩, "01.01.2024 12:00"⟩

/-! ## Helper lemmas -/

/-- A string occurs in any two-sided extension of itself. -/
theorem substr_intro {x s : String} (a b : String) (h : s.data = a.data ++ x.data ++ b.data) :
    Substr x s := by
  unfold Substr
  rw [h]
  exact List.infix_append _ _ _

/-- A string is a prefix of its own right extensions. -/
theorem startsWith_intro {p s : String} (t : String) (h : s.data = p.data ++ t.data) :
    StartsWith p s := by
  unfold StartsWith
  rw [h]
  exact List.prefix_append _ _

/-- A prefix of the left part is a prefix of the whole. -/
theorem StartsWith.append_right {p a : String} (h : StartsWith p a) (b : String) :
    StartsWith p (a ++ b) := by
  unfold StartsWith at h ⊢
  rw [String.data_append]
  exact h.trans (List.prefix_append _ _)

/-- A string is a suffix of its own left extensions. -/
theorem endsWith_intro {p s : String} (t : String) (h : s.data = t.data ++ p.data) :
    EndsWith p s := by
  unfold EndsWith
  rw [h]
  exact List.suffix_append _ _

/-- Two strings that begin with different prefixes of equal length are
different. -/
theorem ne_of_startsWith_ne {p q s t : String} (hp : StartsWith p s) (hq : StartsWith q t)
    (hlen : p.data.length = q.data.length) (hpq : p ≠ q) : s ≠ t := by
  intro hst
  subst hst
  obtain ⟨u, hu⟩ := hp
  obtain ⟨v, hv⟩ := hq
  apply hpq
  exact String.ext (List.append_inj_left (hu.trans hv.symm) hlen)

/-- The ASCII upper-case map is idempotent on characters. -/
theorem char_toUpper_idem (c : Char) : c.toUpper.toUpper = c.toUpper := by
  unfold Char.toUpper
  by_cases h : c.toNat ≥ 97 ∧ c.toNat ≤ 122
  · rw [if_pos h]
    have hv : Nat.isValidChar (c.toNat - 32) := Or.inl (by omega)
    have ht : (Char.ofNat (c.toNat - 32)).toNat = c.toNat - 32 := by
      simp only [Char.ofNat, dif_pos hv]
      rfl
    rw [ht, if_neg (by omega)]
  · rw [if_neg h, if_neg h]

/-- pyUpper is idempotent, as the Python upper method is on the code
points the source feeds it. -/
theorem pyUpper_idem (s : String) : pyUpper (pyUpper s) = pyUpper s := by
  unfold pyUpper
  cases s with
  | mk data =>
    simp only [List.map_map]
    congr 1
    exact List.map_congr_left (fun c _ => char_toUpper_idem c)

/-- Rounding half-to-even moves a rational by at most one half. -/
theorem pyRoundInt_err (q : ℚ) : |(pyRoundInt q : ℚ) - q| ≤ 1/2 := by
  unfold pyRoundInt
  have hfl : (⌊q⌋ : ℚ) ≤ q := Int.floor_le q
  have hfu : q < ⌊q⌋ + 1 := Int.lt_floor_add_one q
  by_cases hlt : q - (⌊q⌋ : ℚ) < 1/2
  · rw [if_pos hlt, abs_le]
    constructor <;> nlinarith
  · rw [if_neg hlt]
    by_cases hgt : (1:ℚ)/2 < q - (⌊q⌋ : ℚ)
    · rw [if_pos hgt, abs_le]
      constructor <;> push_cast <;> nlinarith
    · rw [if_neg hgt]
      have heq : q - (⌊q⌋ : ℚ) = 1/2 := by
        have h1 := not_lt.mp hlt
        have h2 := not_lt.mp hgt
        linarith
      by_cases he : ⌊q⌋ % 2 = 0
      · rw [if_pos he, abs_le]
        constructor <;> nlinarith
      · rw [if_neg he, abs_le]
        constructor <;> push_cast <;> nlinarith

/-- Rounding to four decimal places moves a rational by at most half of
the last retained place. -/
theorem pyRound4_err (q : ℚ) : |pyRound 4 q - q| ≤ 1/20000 := by
  unfold pyRound
  have h := pyRoundInt_err (q * (10:ℚ)^(4:ℕ))
  have hrw : (pyRoundInt (q * (10:ℚ)^(4:ℕ)) : ℚ) / (10:ℚ)^(4:ℕ) - q
      = ((pyRoundInt (q * (10:ℚ)^(4:ℕ)) : ℚ) - q * (10:ℚ)^(4:ℕ)) / (10:ℚ)^(4:ℕ) := by
    field_simp
    ring
  rw [hrw, abs_div]
  rw [abs_of_pos (by norm_num : (0:ℚ) < (10:ℚ)^(4:ℕ))]
  rw [div_le_iff₀ (by norm_num : (0:ℚ) < (10:ℚ)^(4:ℕ))]
  calc |(pyRoundInt (q * (10:ℚ)^(4:ℕ)) : ℚ) - q * (10:ℚ)^(4:ℕ)| ≤ 1/2 := h
    _ = 1/20000 * (10:ℚ)^(4:ℕ) := by norm_num

/-- Error-propagation bound: the product of the two reciprocal rates,
each rounded to 4 decimal places, differs from 1 by at most the
ratio-weighted rounding error. -/
theorem recip_round_bound (r : ℚ) (hr : 0 < r) :
    |pyRound 4 r * pyRound 4 r⁻¹ - 1| ≤ (r + r⁻¹) / 20000 + 1/400000000 := by
  have h1 := pyRound4_err r
  have h2 := pyRound4_err r⁻¹
  have hrinv : 0 < r⁻¹ := inv_pos.mpr hr
  have hr0 : r ≠ 0 := ne_of_gt hr
  have key : pyRound 4 r * pyRound 4 r⁻¹ - 1 =
      (pyRound 4 r - r) * r⁻¹ + (pyRound 4 r⁻¹ - r⁻¹) * r +
      (pyRound 4 r - r) * (pyRound 4 r⁻¹ - r⁻¹) := by
    field_simp
    ring
  rw [key]
  have hA : |(pyRound 4 r - r) * r⁻¹| ≤ r⁻¹ / 20000 := by
    rw [abs_mul, abs_of_pos hrinv]
    calc |pyRound 4 r - r| * r⁻¹ ≤ 1/20000 * r⁻¹ :=
          mul_le_mul_of_nonneg_right h1 (le_of_lt hrinv)
      _ = r⁻¹ / 20000 := by ring
  have hB : |(pyRound 4 r⁻¹ - r⁻¹) * r| ≤ r / 20000 := by
    rw [abs_mul, abs_of_pos hr]
    calc |pyRound 4 r⁻¹ - r⁻¹| * r ≤ 1/20000 * r :=
          mul_le_mul_of_nonneg_right h2 (le_of_lt hr)
      _ = r / 20000 := by ring
  have hC : |(pyRound 4 r - r) * (pyRound 4 r⁻¹ - r⁻¹)| ≤ 1/400000000 := by
    rw [abs_mul]
    calc |pyRound 4 r - r| * |pyRound 4 r⁻¹ - r⁻¹| ≤ 1/20000 * (1/20000) :=
          mul_le_mul h1 h2 (abs_nonneg _) (by norm_num)
      _ = 1/400000000 := by norm_num
  calc |(pyRound 4 r - r) * r⁻¹ + (pyRound 4 r⁻¹ - r⁻¹) * r +
        (pyRound 4 r - r) * (pyRound 4 r⁻¹ - r⁻¹)|
      ≤ |(pyRound 4 r - r) * r⁻¹ + (pyRound 4 r⁻¹ - r⁻¹) * r| +
        |(pyRound 4 r - r) * (pyRound 4 r⁻¹ - r⁻¹)| := abs_add _ _
    _ ≤ |(pyRound 4 r - r) * r⁻¹| + |(pyRound 4 r⁻¹ - r⁻¹) * r| +
        |(pyRound 4 r - r) * (pyRound 4 r⁻¹ - r⁻¹)| := by
          have := abs_add ((pyRound 4 r - r) * r⁻¹) ((pyRound 4 r⁻¹ - r⁻¹) * r)
          linarith
    _ ≤ (r + r⁻¹) / 20000 + 1/400000000 := by linarith

/-- What get_exchange_rate returns on a 200 fetch when both codes are
present and the from-side rate is nonzero. -/
theorem get_exchange_rate_ok_of_lookup (rates : List (String × ℚ)) (ts : String)
    (f t : String) (rf rt : ℚ)
    (hf : lookupRate rates (pyUpper f) = some rf)
    (ht : lookupRate rates (pyUpper t) = some rt)
    (h0 : rf ≠ 0) :
    get_exchange_rate ⟨.ok ⟨200, .ok ⟨rates, ts⟩⟩⟩ f t =
      .ok (fxSuccessStr f t (pyRound 4 (rt / rf)) ts) := by
  simp only [get_exchange_rate]
  norm_num
  rw [hf, ht]
  simp [h0]

/-- What fxRateValue yields when both codes are present and the
from-side rate is nonzero. -/
theorem fxRateValue_of_lookup (rates : List (String × ℚ)) (f t : String) (rf rt : ℚ)
    (hf : lookupRate rates (pyUpper f) = some rf)
    (ht : lookupRate rates (pyUpper t) = some rt)
    (h0 : rf ≠ 0) :
    fxRateValue rates f t = some (pyRound 4 (rt / rf)) := by
  simp only [fxRateValue]
  rw [hf, ht]
  simp [h0]

/-- Appending on a seed string factors out of the string fold. -/
theorem string_foldl_append (l : List String) :
    ∀ (a : String), l.foldl (· ++ ·) a = a ++ l.foldl (· ++ ·) "" := by
  induction l with
  | nil => intro a; simp
  | cons s ss ih =>
    intro a
    simp only [List.foldl_cons]
    rw [ih (a ++ s), ih ("" ++ s)]
    simp [String.append_assoc]

/-- String.join splits off its head. -/
theorem string_join_cons (s : String) (l : List String) :
    String.join (s :: l) = s ++ String.join l := by
  simp only [String.join, List.foldl_cons]
  rw [string_foldl_append l ("" ++ s)]
  simp

/-- The pair (EUR, USD) of the concrete table formats as 2.0000. -/
theorem fmtFixed_eurusd : fmtFixed 4 (pyRound 4 ((2:ℚ) / 1)) = "2.0000" := by
  have h1 : pyRound 4 ((2:ℚ) / 1) = 2 := by norm_num [pyRound, pyRoundInt]
  rw [h1]
  have h2 : pyRoundInt ((2:ℚ) * (10:ℚ)^(4:ℕ)) = 20000 := by norm_num [pyRoundInt]
  simp only [fmtFixed, h2]
  rfl

/-- The pair (USD, JPY) of the concrete table formats as 150.0000. -/
theorem fmtFixed_usdjpy : fmtFixed 4 (pyRound 4 ((300:ℚ) / 2)) = "150.0000" := by
  have h1 : pyRound 4 ((300:ℚ) / 2) = 150 := by norm_num [pyRound, pyRoundInt]
  rw [h1]
  have h2 : pyRoundInt ((150:ℚ) * (10:ℚ)^(4:ℕ)) = 1500000 := by norm_num [pyRoundInt]
  simp only [fmtFixed, h2]
  rfl

/-- Evaluation of the FX operation on the concrete table, pair (EUR, USD). -/
theorem fx_eval_eurusd : get_exchange_rate fxEnvCex "EUR" "USD" = .ok fxMsgEURUSD := by
  have h := get_exchange_rate_ok_of_lookup [("EUR", 1), ("USD", 2), ("JPY", 300)]
    "01.01.2024 00:00" "EUR" "USD" 1 2 (by decide) (by decide) (by norm_num)
  simp only [fxEnvCex, fxDataCex]
  rw [h]
  simp only [fxSuccessStr, fmtFixed_eurusd]
  rfl

/-- Evaluation of the FX operation on the concrete table, pair (USD, JPY). -/
theorem fx_eval_usdjpy : get_exchange_rate fxEnvCex "USD" "JPY" = .ok fxMsgUSDJPY := by
  have h := get_exchange_rate_ok_of_lookup [("EUR", 1), ("USD", 2), ("JPY", 300)]
    "01.01.2024 00:00" "USD" "JPY" 2 300 (by decide) (by decide) (by norm_num)
  simp only [fxEnvCex, fxDataCex]
  rw [h]
  simp only [fxSuccessStr, fmtFixed_usdjpy]
  rfl

/-! ## Claims -/

/-- Claim C1, counterexample: the claim says no client operation ever
raises, but on an environment where the yfinance history fetch raises,
get_stock_history propagates the exception instead of returning a
string. -/
theorem get_stock_history_raises_cex :
    get_stock_history stockEnvRaises = Except.error "HTTPError: 503 Server Error" ∧
    ¬ ∃ s, get_stock_history stockEnvRaises = Except.ok s := by
  constructor
  · rfl
  · rintro ⟨s, hs⟩
    simp [get_stock_history, stockEnvRaises] at hs

/-- Claim C1, amended: get_stock_price never raises — on every
environment it returns a string.  Each of the other three operations
either returns a string or raises, and when it raises the exception is
one propagated from an unguarded external step: for get_stock_history
the history fetch or the metadata lookup, for get_financial_news and
get_exchange_rate the HTTP request or the json decoding of a 200
response.  Exceptions arising inside each guarded region are still
converted to failure strings. -/
theorem client_ops_exception_boundary :
    (∀ env : StockEnv, ∃ s, get_stock_price env = Except.ok s) ∧
    (∀ env : StockEnv, (∃ s, get_stock_history env = Except.ok s) ∨
       (∃ e, get_stock_history env = Except.error e ∧
          (env.histResult = Except.error e ∨ env.shortNameResult = Except.error e))) ∧
    (∀ env : NewsEnv, (∃ s, get_financial_news env = Except.ok s) ∨
       (∃ e, get_financial_news env = Except.error e ∧
          (env.httpResult = Except.error e ∨
           ∃ resp, env.httpResult = Except.ok resp ∧ resp.jsonArticles = Except.error e))) ∧
    (∀ (env : FxEnv) (f t : String), (∃ s, get_exchange_rate env f t = Except.ok s) ∨
       (∃ e, get_exchange_rate env f t = Except.error e ∧
          (env.httpResult = Except.error e ∨
           ∃ resp, env.httpResult = Except.ok resp ∧ resp.jsonData = Except.error e))) := by
  refine ⟨?_, ?_, ?_, ?_⟩
  · rintro ⟨tick, histR, nameR⟩
    cases histR with
    | error e => exact ⟨_, rfl⟩
    | ok hist =>
      cases hg : hist.getLast? with
      | none => exact ⟨_, by simp [get_stock_price, hg]; rfl⟩
      | some last =>
        cases nameR with
        | error e => exact ⟨_, by simp [get_stock_price, hg]; rfl⟩
        | ok nameOpt => exact ⟨_, by simp [get_stock_price, hg]; rfl⟩
  · rintro ⟨tick, histR, nameR⟩
    cases histR with
    | error e => exact Or.inr ⟨e, rfl, Or.inl rfl⟩
    | ok hist =>
      by_cases hg : hist.isEmpty
      · exact Or.inl ⟨_, by simp [get_stock_history, hg]; rfl⟩
      · cases nameR with
        | error e => exact Or.inr ⟨e, by simp [get_stock_history, hg], Or.inr rfl⟩
        | ok nameOpt => exact Or.inl ⟨_, by simp [get_stock_history, hg]; rfl⟩
  · rintro ⟨name, httpR, now⟩
    cases httpR with
    | error e => exact Or.inr ⟨e, rfl, Or.inl rfl⟩
    | ok resp =>
      obtain ⟨status, artR⟩ := resp
      by_cases hs : status = 200
      · cases artR with
        | error e =>
          refine Or.inr ⟨e, by simp [get_financial_news, hs], Or.inr ⟨⟨status, .error e⟩, rfl, rfl⟩⟩
        | ok arts =>
          cases arts with
          | nil => exact Or.inl ⟨_, by simp [get_financial_news, hs]; rfl⟩
          | cons a rest => exact Or.inl ⟨_, by simp [get_financial_news, hs]; rfl⟩
      · exact Or.inl ⟨_, by simp [get_financial_news, hs]; rfl⟩
  · rintro ⟨httpR⟩ f t
    cases httpR with
    | error e => exact Or.inr ⟨e, rfl, Or.inl rfl⟩
    | ok resp =>
      obtain ⟨status, dataR⟩ := resp
      by_cases hs : status = 200
      · cases dataR with
        | error e =>
          refine Or.inr ⟨e, by simp [get_exchange_rate, hs], Or.inr ⟨⟨status, .error e⟩, rfl, rfl⟩⟩
        | ok data =>
          cases hf : lookupRate data.rates (pyUpper f) with
          | none => exact Or.inl ⟨_, by simp [get_exchange_rate, hs, hf]; rfl⟩
          | some rf =>
            cases ht : lookupRate data.rates (pyUpper t) with
            | none => exact Or.inl ⟨_, by simp [get_exchange_rate, hs, hf, ht]; rfl⟩
            | some rt =>
              by_cases h0 : rf = 0
              · exact Or.inl ⟨_, by simp [get_exchange_rate, hs, hf, ht, h0]; rfl⟩
              · exact Or.inl ⟨_, by simp [get_exchange_rate, hs, hf, ht, h0]; rfl⟩
      · exact Or.inl ⟨_, by simp [get_exchange_rate, hs]; rfl⟩

/-- Claim C8: a tool-call request whose function name is none of the
four registered names dispatches to the final else branch, yielding
exactly the literal Unknown function call string, appended to the
transcript as a tool-result message tagged with the requested name, and
no exception is raised. -/
theorem unknown_function_dispatch (env : DispatchEnv) (msgs : List ChatMessage)
    (function_name : String)
    (h : function_name ∉ ["get_stock_price", "get_stock_history",
                          "get_financial_news", "get_exchange_rate"]) :
    dispatch_function_call env function_name = Except.ok "Unknown function call." ∧
    run_tool_call env msgs function_name =
      Except.ok ("Unknown function call.",
        msgs ++ [⟨ChatRole.function, "Unknown function call.", some function_name⟩]) := by
  simp only [List.mem_cons, List.mem_singleton, not_or] at h
  obtain ⟨h1, h2, h3, h4, _⟩ := h
  constructor
  · simp [dispatch_function_call, h1, h2, h3, h4]
  · simp [run_tool_call, dispatch_function_call, h1, h2, h3, h4]

/-- Claim C8, witness at the concrete unregistered name frobnicate. -/
theorem unknown_function_dispatch_witness :
    dispatch_function_call
        ⟨stockEnvEmpty, stockEnvEmpty, newsEnvEmpty, fxEnvCex, "EUR", "USD"⟩ "frobnicate" =
      Except.ok "Unknown function call." ∧
    run_tool_call ⟨stockEnvEmpty, stockEnvEmpty, newsEnvEmpty, fxEnvCex, "EUR", "USD"⟩
        [] "frobnicate" =
      Except.ok ("Unknown function call.",
        [⟨ChatRole.function, "Unknown function call.", some "frobnicate"⟩]) := by
  have h := unknown_function_dispatch
    ⟨stockEnvEmpty, stockEnvEmpty, newsEnvEmpty, fxEnvCex, "EUR", "USD"⟩ [] "frobnicate"
    (by decide)
  simpa using h

/-- Claim C9: the downloaded chat history is exactly the concatenation,
in transcript order, of one User line per user message and one
Assistant line per assistant message; system and tool-result messages
contribute nothing. -/
theorem download_chat_history_characterization (msgs : List ChatMessage) :
    download_chat_history msgs =
      String.join ((msgs.filter keptInDownload).map transcriptLine) := by
  have aux : ∀ (l : List ChatMessage) (acc : String),
      l.foldl (fun acc msg =>
        if msg.role = ChatRole.user then acc ++ ("User: " ++ msg.content ++ "\n")
        else if msg.role = ChatRole.assistant then acc ++ ("Assistant: " ++ msg.content ++ "\n")
        else acc) acc
      = acc ++ String.join ((l.filter keptInDownload).map transcriptLine) := by
    intro l
    induction l with
    | nil => intro acc; simp [String.join]
    | cons m ms ih =>
      intro acc
      rcases m with ⟨role, content, mname⟩
      cases role with
      | user =>
        simp only [List.foldl_cons, List.filter_cons]
        rw [ih]
        simp [keptInDownload, transcriptLine, string_join_cons, String.append_assoc]
      | assistant =>
        simp only [List.foldl_cons, List.filter_cons]
        rw [ih]
        simp [keptInDownload, transcriptLine, string_join_cons, String.append_assoc]
      | system =>
        simp only [List.foldl_cons, List.filter_cons]
        rw [ih]
        simp [keptInDownload]
      | function =>
        simp only [List.foldl_cons, List.filter_cons]
        rw [ih]
        simp [keptInDownload]
  rw [download_chat_history, aux msgs ""]
  simp

/-- Claim C5: when the fetched 7-day history is empty, the two stock
operations return their fixed failure strings without raising; the two
strings differ; only the current-price message directs the user to
check the symbol; and neither message contains the support contact. -/
theorem empty_history_messages (envP envH : StockEnv)
    (hP : envP.histResult = Except.ok []) (hH : envH.histResult = Except.ok []) :
    get_stock_price envP =
      Except.ok "❌ Could not find any price data. Please check the ticker symbol or company name." ∧
    get_stock_history envH = Except.ok "❌ No stock data available for this company." ∧
    ("❌ Could not find any price data. Please check the ticker symbol or company name." : String)
      ≠ "❌ No stock data available for this company." ∧
    Substr "check the ticker symbol"
      "❌ Could not find any price data. Please check the ticker symbol or company name." ∧
    ¬ Substr "check the ticker symbol" "❌ No stock data available for this company." ∧
    ¬ Substr SUPPORT_PHONE_NUMBER
      "❌ Could not find any price data. Please check the ticker symbol or company name." ∧
    ¬ Substr SUPPORT_PHONE_NUMBER "❌ No stock data available for this company." := by
  refine ⟨?_, ?_, by decide, by decide, by decide, by decide, by decide⟩
  · obtain ⟨tick, histR, nameR⟩ := envP
    simp only at hP
    subst hP
    rfl
  · obtain ⟨tick, histR, nameR⟩ := envH
    simp only at hH
    subst hH
    rfl

/-- Claim C5, witness at a concrete empty-history environment. -/
theorem empty_history_messages_witness :
    get_stock_price stockEnvEmpty =
      Except.ok "❌ Could not find any price data. Please check the ticker symbol or company name." ∧
    get_stock_history stockEnvEmpty = Except.ok "❌ No stock data available for this company." ∧
    ("❌ Could not find any price data. Please check the ticker symbol or company name." : String)
      ≠ "❌ No stock data available for this company." ∧
    Substr "check the ticker symbol"
      "❌ Could not find any price data. Please check the ticker symbol or company name." ∧
    ¬ Substr "check the ticker symbol" "❌ No stock data available for this company." ∧
    ¬ Substr SUPPORT_PHONE_NUMBER
      "❌ Could not find any price data. Please check the ticker symbol or company name." ∧
    ¬ Substr SUPPORT_PHONE_NUMBER "❌ No stock data available for this company." :=
  empty_history_messages stockEnvEmpty stockEnvEmpty rfl rfl

/-- Claim C6: on a 200 fetch, if either currency code (upper-cased, as
the source looks it up) is absent from the rate table, the operation
returns the one generic pair-not-found message, the same whichever side
is missing. -/
theorem missing_code_generic_message (rates : List (String × ℚ)) (ts : String) (f t : String)
    (h : lookupRate rates (pyUpper f) = none ∨ lookupRate rates (pyUpper t) = none) :
    get_exchange_rate ⟨.ok ⟨200, .ok ⟨rates, ts⟩⟩⟩ f t =
      Except.ok "❌ The currency pair could not be found." := by
  rcases h with hf | ht
  · simp [get_exchange_rate, hf]
  · cases hf2 : lookupRate rates (pyUpper f) with
    | none => simp [get_exchange_rate, hf2]
    | some rf => simp [get_exchange_rate, hf2, ht]

/-- Claim C6, witness: EUR missing from a USD-only table (from-side),
USD missing from it as to-side, and both missing, all give the same
generic message. -/
theorem missing_code_generic_message_witness :
    get_exchange_rate ⟨.ok ⟨200, .ok ⟨[("USD", 1)], "01.01.2024 00:00"⟩⟩⟩ "EUR" "USD" =
      Except.ok "❌ The currency pair could not be found." ∧
    get_exchange_rate ⟨.ok ⟨200, .ok ⟨[("USD", 1)], "01.01.2024 00:00"⟩⟩⟩ "USD" "EUR" =
      Except.ok "❌ The currency pair could not be found." ∧
    get_exchange_rate ⟨.ok ⟨200, .ok ⟨[("USD", 1)], "01.01.2024 00:00"⟩⟩⟩ "EUR" "JPY" =
      Except.ok "❌ The currency pair could not be found." :=
  ⟨missing_code_generic_message [("USD", 1)] "01.01.2024 00:00" "EUR" "USD"
      (Or.inl (by decide)),
   missing_code_generic_message [("USD", 1)] "01.01.2024 00:00" "USD" "EUR"
      (Or.inr (by decide)),
   missing_code_generic_message [("USD", 1)] "01.01.2024 00:00" "EUR" "JPY"
      (Or.inl (by decide))⟩

/-- Claim C4: when the fetched 7-day history is non-empty (and the
metadata lookup returns), the current-price payload contains the
resolved ticker, the date of the last history row and the rendering of
that row's close rounded to 2 decimal places, and it ends with the
source and date attribution footer. -/
theorem price_nonempty_format (env : StockEnv) (hist : List HistRow) (last : HistRow)
    (nameOpt : Option String)
    (hh : env.histResult = Except.ok hist)
    (hl : hist.getLast? = some last)
    (hn : env.shortNameResult = Except.ok nameOpt) :
    ∃ out, get_stock_price env = Except.ok out ∧
      Substr env.resolvedTicker out ∧
      Substr last.date out ∧
      Substr (fmtFixed 2 (pyRound 2 last.close)) out ∧
      EndsWith ("_Source: Yahoo Finance (yfinance), as of " ++ last.date ++ "_") out := by
  refine ⟨priceSuccessStr (nameOpt.getD env.resolvedTicker) env.resolvedTicker
            last.date last.close last.high last.low last.volume, ?_, ?_, ?_, ?_, ?_⟩
  · obtain ⟨tick, histR, nameR⟩ := env
    simp only at hh hn
    subst hh
    subst hn
    simp [get_stock_price, hl]
  · apply substr_intro ("**" ++ (nameOpt.getD env.resolvedTicker) ++ " (")
      (") as of " ++ last.date ++ "**\n" ++
       "Closing price: **" ++ fmtFixed 2 (pyRound 2 last.close) ++ " USD**\n" ++
       "High: " ++ fmtFixed 2 (pyRound 2 last.high) ++ " USD, Low: " ++
       fmtFixed 2 (pyRound 2 last.low) ++ " USD, Volume: " ++ toString last.volume ++ "\n\n" ++
       "_Source: Yahoo Finance (yfinance), as of " ++ last.date ++ "_")
    simp [priceSuccessStr, String.data_append, List.append_assoc]
  · apply substr_intro ("**" ++ (nameOpt.getD env.resolvedTicker) ++ " (" ++
        env.resolvedTicker ++ ") as of ")
      ("**\n" ++
       "Closing price: **" ++ fmtFixed 2 (pyRound 2 last.close) ++ " USD**\n" ++
       "High: " ++ fmtFixed 2 (pyRound 2 last.high) ++ " USD, Low: " ++
       fmtFixed 2 (pyRound 2 last.low) ++ " USD, Volume: " ++ toString last.volume ++ "\n\n" ++
       "_Source: Yahoo Finance (yfinance), as of " ++ last.date ++ "_")
    simp [priceSuccessStr, String.data_append, List.append_assoc]
  · apply substr_intro ("**" ++ (nameOpt.getD env.resolvedTicker) ++ " (" ++
        env.resolvedTicker ++ ") as of " ++ last.date ++ "**\n" ++ "Closing price: **")
      (" USD**\n" ++
       "High: " ++ fmtFixed 2 (pyRound 2 last.high) ++ " USD, Low: " ++
       fmtFixed 2 (pyRound 2 last.low) ++ " USD, Volume: " ++ toString last.volume ++ "\n\n" ++
       "_Source: Yahoo Finance (yfinance), as of " ++ last.date ++ "_")
    simp [priceSuccessStr, String.data_append, List.append_assoc]
  · apply endsWith_intro ("**" ++ (nameOpt.getD env.resolvedTicker) ++ " (" ++
        env.resolvedTicker ++ ") as of " ++ last.date ++ "**\n" ++
       "Closing price: **" ++ fmtFixed 2 (pyRound 2 last.close) ++ " USD**\n" ++
       "High: " ++ fmtFixed 2 (pyRound 2 last.high) ++ " USD, Low: " ++
       fmtFixed 2 (pyRound 2 last.low) ++ " USD, Volume: " ++ toString last.volume ++ "\n\n")
    simp [priceSuccessStr, String.data_append, List.append_assoc]

/-- Claim C4, witness at a concrete one-row history. -/
theorem price_nonempty_format_witness :
    ∃ out, get_stock_price stockEnvOneRow = Except.ok out ∧
      Substr stockEnvOneRow.resolvedTicker out ∧
      Substr rowJan2.date out ∧
      Substr (fmtFixed 2 (pyRound 2 rowJan2.close)) out ∧
      EndsWith ("_Source: Yahoo Finance (yfinance), as of " ++ rowJan2.date ++ "_") out :=
  price_nonempty_format stockEnvOneRow [rowJan2] rowJan2 (some "Apple Inc.") rfl rfl rfl

/-- Claim C7: every string returned by the four client operations is
either the success payload of that operation (in which case it has the
operation's success shape) or begins with the failure marker ❌ —
except that the no-news informational message begins with the marker
ℹ️ instead — so a caller can branch on the start of the string. -/
theorem output_marker_invariant :
    (∀ (env : StockEnv) (s : String), get_stock_price env = Except.ok s →
       StartsWith "❌" s ∨
       ∃ name date close high low volume,
         s = priceSuccessStr name env.resolvedTicker date close high low volume) ∧
    (∀ (env : StockEnv) (s : String), get_stock_history env = Except.ok s →
       StartsWith "❌" s ∨
       ∃ name rows, s = historySuccessStr name env.resolvedTicker rows) ∧
    (∀ (env : NewsEnv) (s : String), get_financial_news env = Except.ok s →
       StartsWith "❌" s ∨ StartsWith "ℹ️" s ∨
       ∃ articles, s = newsSuccessStr articles env.now) ∧
    (∀ (env : FxEnv) (f t : String) (s : String), get_exchange_rate env f t = Except.ok s →
       StartsWith "❌" s ∨ ∃ rate ts, s = fxSuccessStr f t rate ts) := by
  refine ⟨?_, ?_, ?_, ?_⟩
  · rintro ⟨tick, histR, nameR⟩ s h
    cases histR with
    | error e =>
      left
      obtain rfl : _ = s := Except.ok.inj h
      exact (((by decide :
        StartsWith "❌" "❌ Error while retrieving stock data: ").append_right
          e).append_right _).append_right _
    | ok hist =>
      cases hg : hist.getLast? with
      | none =>
        left
        simp [get_stock_price, hg] at h
        subst h
        decide
      | some last =>
        cases nameR with
        | error e =>
          left
          simp [get_stock_price, hg] at h
          subst h
          exact (((by decide :
            StartsWith "❌" "❌ Error while retrieving stock data: ").append_right
              e).append_right _).append_right _
        | ok nameOpt =>
          right
          simp [get_stock_price, hg] at h
          exact ⟨_, _, _, _, _, _, h.symm⟩
  · rintro ⟨tick, histR, nameR⟩ s h
    cases histR with
    | error e => exact absurd h (by simp [get_stock_history])
    | ok hist =>
      by_cases hg : hist.isEmpty
      · left
        simp [get_stock_history, hg] at h
        subst h
        decide
      · cases nameR with
        | error e => exact absurd h (by simp [get_stock_history, hg])
        | ok nameOpt =>
          right
          simp [get_stock_history, hg] at h
          exact ⟨_, _, h.symm⟩
  · rintro ⟨name, httpR, now⟩ s h
    cases httpR with
    | error e => exact absurd h (by simp [get_financial_news])
    | ok resp =>
      obtain ⟨status, artR⟩ := resp
      by_cases hs : status = 200
      · cases artR with
        | error e => exact absurd h (by simp [get_financial_news, hs])
        | ok arts =>
          cases arts with
          | nil =>
            right; left
            simp [get_financial_news, hs] at h
            subst h
            exact ((by decide :
              StartsWith "ℹ️" "ℹ️ No recent news found for **").append_right
                name).append_right _
          | cons a rest =>
            right; right
            simp [get_financial_news, hs] at h
            exact ⟨_, h.symm⟩
      · left
        simp [get_financial_news, hs] at h
        subst h
        exact ((by decide :
          StartsWith "❌" "❌ Error while retrieving news (Status ").append_right
            _).append_right _
  · rintro ⟨httpR⟩ f t s h
    cases httpR with
    | error e => exact absurd h (by simp [get_exchange_rate])
    | ok resp =>
      obtain ⟨status, dataR⟩ := resp
      by_cases hs : status = 200
      · cases dataR with
        | error e => exact absurd h (by simp [get_exchange_rate, hs])
        | ok data =>
          cases hf : lookupRate data.rates (pyUpper f) with
          | none =>
            left
            simp [get_exchange_rate, hs, hf] at h
            subst h
            decide
          | some rf =>
            cases ht : lookupRate data.rates (pyUpper t) with
            | none =>
              left
              simp [get_exchange_rate, hs, hf, ht] at h
              subst h
              decide
            | some rt =>
              by_cases h0 : rf = 0
              · left
                simp [get_exchange_rate, hs, hf, ht, h0] at h
                subst h
                decide
              · right
                simp [get_exchange_rate, hs, hf, ht, h0] at h
                exact ⟨_, _, h.symm⟩
      · left
        simp [get_exchange_rate, hs] at h
        subst h
        exact ((by decide :
          StartsWith "❌" "❌ Error while retrieving exchange rate (Status ").append_right
            _).append_right _

/-- Claim C7, witness at concrete environments: the empty-history
failure string carries the marker, and the one-row success output has
the success shape. -/
theorem output_marker_invariant_witness :
    (StartsWith "❌" "❌ Could not find any price data. Please check the ticker symbol or company name." ∨
     ∃ name date close high low volume,
       ("❌ Could not find any price data. Please check the ticker symbol or company name." : String) =
         priceSuccessStr name stockEnvEmpty.resolvedTicker date close high low volume) ∧
    (StartsWith "❌" "❌ The currency pair could not be found." ∨
     ∃ rate ts,
       ("❌ The currency pair could not be found." : String) = fxSuccessStr "EUR" "USD" rate ts) :=
  ⟨output_marker_invariant.1 stockEnvEmpty _ rfl,
   output_marker_invariant.2.2.2 ⟨.ok ⟨200, .ok ⟨[("USD", 1)], "ts"⟩⟩⟩ "EUR" "USD" _
     (by rfl)⟩

/-- Claim C10: get_exchange_rate is case-insensitive in its
currency-code arguments — upper-casing them does not change the result
— and a success payload displays both codes upper-cased. -/
theorem exchange_rate_case_insensitive :
    (∀ (env : FxEnv) (f t : String),
       get_exchange_rate env f t = get_exchange_rate env (pyUpper f) (pyUpper t)) ∧
    (∀ (rates : List (String × ℚ)) (ts f t : String) (rf rt : ℚ),
       lookupRate rates (pyUpper f) = some rf →
       lookupRate rates (pyUpper t) = some rt →
       rf ≠ 0 →
       get_exchange_rate ⟨.ok ⟨200, .ok ⟨rates, ts⟩⟩⟩ f t =
         Except.ok ("1 " ++ pyUpper f ++ " = **" ++ fmtFixed 4 (pyRound 4 (rt / rf)) ++ " " ++
           pyUpper t ++ "**\n" ++ "_Source: Open Exchange Rates, as of " ++ ts ++ " UTC_")) := by
  constructor
  · rintro ⟨httpR⟩ f t
    cases httpR with
    | error e => rfl
    | ok resp =>
      obtain ⟨status, dataR⟩ := resp
      by_cases hs : status = 200
      · cases dataR with
        | error e => simp [get_exchange_rate, hs]
        | ok data => simp [get_exchange_rate, fxSuccessStr, pyUpper_idem, hs]
      · simp [get_exchange_rate, hs]
  · intro rates ts f t rf rt hf ht h0
    rw [get_exchange_rate_ok_of_lookup rates ts f t rf rt hf ht h0]
    rfl

/-- Claim C10, witness at lower-case arguments over a concrete table. -/
theorem exchange_rate_case_insensitive_witness :
    get_exchange_rate ⟨.ok ⟨200, .ok ⟨[("EUR", 1), ("USD", 2)], "ts"⟩⟩⟩ "eur" "usd" =
      Except.ok ("1 " ++ pyUpper "eur" ++ " = **" ++ fmtFixed 4 (pyRound 4 ((2:ℚ) / 1)) ++ " " ++
        pyUpper "usd" ++ "**\n" ++ "_Source: Open Exchange Rates, as of " ++ "ts" ++ " UTC_") :=
  exchange_rate_case_insensitive.2 [("EUR", 1), ("USD", 2)] "ts" "eur" "usd" 1 2
    (by decide) (by decide) (by norm_num)

/-- Claim C2, counterexample: the cache DOES key on the currency pair.
Priming the cache with (EUR, USD) and calling (USD, JPY) 60 seconds
later — inside the 5-minute window — returns the fresh (USD, JPY)
payload, not the cached (EUR, USD) one. -/
theorem fx_cache_pair_keyed_cex :
    cached_get_exchange_rate [] 0 fxEnvCex "EUR" "USD" =
      (Except.ok fxMsgEURUSD, [⟨("EUR", "USD"), 0, fxMsgEURUSD⟩]) ∧
    cached_get_exchange_rate [⟨("EUR", "USD"), 0, fxMsgEURUSD⟩] 60 fxEnvCex "USD" "JPY" =
      (Except.ok fxMsgUSDJPY,
       [⟨("USD", "JPY"), 60, fxMsgUSDJPY⟩, ⟨("EUR", "USD"), 0, fxMsgEURUSD⟩]) ∧
    fxMsgUSDJPY ≠ fxMsgEURUSD ∧
    Except.ok fxMsgUSDJPY = get_exchange_rate fxEnvCex "USD" "JPY" := by
  refine ⟨?_, ?_, by decide, fx_eval_usdjpy.symm⟩
  · unfold cached_get_exchange_rate
    rw [show fxCacheLookup [] 0 ("EUR", "USD") = none from rfl]
    rw [fx_eval_eurusd]
  · unfold cached_get_exchange_rate
    rw [show fxCacheLookup [⟨("EUR", "USD"), 0, fxMsgEURUSD⟩] 60 ("USD", "JPY") = none from rfl]
    rw [fx_eval_usdjpy]

/-- Claim C2, amended: the streamlit cache memoizes per argument pair,
so a call whose (from_currency, to_currency) pair has no cache entry
always computes its own rate; an entry stored for a different pair is
never returned, at any time inside or outside the window. -/
theorem fx_cache_distinct_pair_fresh (cache : List FxCacheEntry) (now : ℕ) (env : FxEnv)
    (f t : String) (h : ∀ e ∈ cache, e.args ≠ (f, t)) :
    (cached_get_exchange_rate cache now env f t).1 = get_exchange_rate env f t := by
  have hl : fxCacheLookup cache now (f, t) = none := by
    unfold fxCacheLookup
    have : List.find? (fun e => decide (e.args = (f, t)) && Nat.blt (now - e.storedAt) 300)
        cache = none := by
      rw [List.find?_eq_none]
      intro e he
      simp [h e he]
    rw [this]
    rfl
  unfold cached_get_exchange_rate
  rw [hl]
  cases hres : get_exchange_rate env f t <;> rfl

/-- Claim C2 amended, witness: a cache holding only an (EUR, USD) entry
leaves a (USD, JPY) call computing fresh. -/
theorem fx_cache_distinct_pair_fresh_witness :
    (cached_get_exchange_rate [⟨("EUR", "USD"), 0, "stale"⟩] 60 fxEnvCex "USD" "JPY").1 =
      get_exchange_rate fxEnvCex "USD" "JPY" :=
  fx_cache_distinct_pair_fresh [⟨("EUR", "USD"), 0, "stale"⟩] 60 fxEnvCex "USD" "JPY"
    (by decide)

/-- Claim C3, counterexample: a table with both codes present at
nonzero rates 1 and 30000; the two reported rates are 30000 and 0 (the
reciprocal 1/30000 rounds to 0 at 4 decimal places), so their product
is 0, not 1 within any rounding tolerance below 1. -/
theorem fx_reciprocal_product_cex :
    fxRateValue recipRates "AAA" "BBB" = some 30000 ∧
    fxRateValue recipRates "BBB" "AAA" = some 0 ∧
    ¬ |(30000 : ℚ) * 0 - 1| ≤ 1/10000 := by
  refine ⟨?_, ?_, by norm_num⟩
  · rw [fxRateValue_of_lookup recipRates "AAA" "BBB" 1 30000 (by decide) (by decide)
        (by norm_num)]
    norm_num [pyRound, pyRoundInt]
  · rw [fxRateValue_of_lookup recipRates "BBB" "AAA" 30000 1 (by decide) (by decide)
        (by norm_num)]
    norm_num [pyRound, pyRoundInt]

/-- Claim C3, amended: for positive table rates the product of the two
reported reciprocal rates differs from 1 by at most the ratio-weighted
propagated rounding error (r + 1/r)/20000 + 1/400000000, where r is the
exact ratio.  Within about one of the ratio this is of the order 1e-4,
but for extreme ratios the product can be far from 1 (see the
counterexample, where it is 0). -/
theorem fx_reciprocal_product_bound (rates : List (String × ℚ)) (f t : String) (rf rt : ℚ)
    (hf : lookupRate rates (pyUpper f) = some rf)
    (ht : lookupRate rates (pyUpper t) = some rt)
    (hrf : 0 < rf) (hrt : 0 < rt) :
    ∃ r1 r2, fxRateValue rates f t = some r1 ∧ fxRateValue rates t f = some r2 ∧
      |r1 * r2 - 1| ≤ (rt / rf + rf / rt) / 20000 + 1/400000000 := by
  refine ⟨pyRound 4 (rt / rf), pyRound 4 (rf / rt),
    fxRateValue_of_lookup rates f t rf rt hf ht (ne_of_gt hrf),
    fxRateValue_of_lookup rates t f rt rf ht hf (ne_of_gt hrt), ?_⟩
  have hr : 0 < rt / rf := div_pos hrt hrf
  have hinv : (rt / rf)⁻¹ = rf / rt := inv_div rt rf
  have hb := recip_round_bound (rt / rf) hr
  rw [hinv] at hb
  exact hb

/-- Claim C3 amended, witness at the table AAA at 1, BBB at 2. -/
theorem fx_reciprocal_product_bound_witness :
    ∃ r1 r2, fxRateValue [("AAA", 1), ("BBB", 2)] "AAA" "BBB" = some r1 ∧
      fxRateValue [("AAA", 1), ("BBB", 2)] "BBB" "AAA" = some r2 ∧
      |r1 * r2 - 1| ≤ ((2:ℚ) / 1 + 1 / 2) / 20000 + 1/400000000 :=
  fx_reciprocal_product_bound [("AAA", 1), ("BBB", 2)] "AAA" "BBB" 1 2
    (by decide) (by decide) (by norm_num) (by norm_num)
